import Mathlib

/-!
Shallow embedding of `src/database_client_template/sql_database_client.py`
(class `SQLDatabaseClient`) from the DTU-46400-python-tools repository.

Python strings are Lean `String`s, pandas dataframes are a record of column
names, dtype strings and column-major data, the filesystem is a pair of
association lists (cache directory, query directory), and the two `tenacity`
retried methods are modelled by an explicit fuel-indexed retry loop
(`stop_after_attempt(10)`, no `reraise`, so exhaustion raises a `RetryError`
wrapping the last attempt's exception).
-/

namespace DBClient

deriving instance DecidableEq for Except

/-- Python exception values that the client code can raise or propagate. -/
inductive PyExc where
  /-- `ValueError(msg)` as raised by `write_data` when no store credentials exist. -/
  | valueError (msg : String)
  /-- `FileNotFoundError` from `Path(...).read_text()` on a missing query file. -/
  | fileNotFoundError (path : String)
  /-- `PermissionError` from `os.remove` / `open(..., "wb")` in an unwritable cache directory. -/
  | permissionError
  /-- `pymysql.err.InterfaceError` from executing on a closed connection. -/
  | interfaceError
  /-- A generic database-side error (connection lost, bad SQL, ...), tagged by a code. -/
  | dbError (code : Nat)
  /-- `IndexError` from `df.columns[list(range(k))]` with `k` larger than the column count. -/
  | indexError
  /-- `tenacity.RetryError` wrapping the exception of the final failed attempt. -/
  | retryError (lastExc : PyExc)
deriving DecidableEq, Repr

/-- Per-character lower-casing, the model of Python `str.lower` /
`pandas.Index.str.lower` (ASCII-faithful, like `Char.toLower`). -/
def strLower (s : String) : String := ⟨s.data.map Char.toLower⟩

/-- Model of Python `str.startswith`. -/
def strStartsWith (s pre : String) : Bool := pre.data.isPrefixOf s.data

/-- Helper for substring search on character lists. -/
def subOf (needle : List Char) : List Char → Bool
  | [] => needle.isEmpty
  | c :: cs => needle.isPrefixOf (c :: cs) || subOf needle cs

/-- Model of Python `needle in hay` on strings. -/
def strContains (hay needle : String) : Bool := subOf needle.data hay.data

/-- A pandas DataFrame: named index columns (empty list = default RangeIndex),
ordinary columns, dtype strings (`str(dtype)`) and column-major cell data. -/
structure DataFrame where
  indexCols : List String
  indexDtypes : List String
  indexData : List (List String)
  cols : List String
  dtypes : List String
  colData : List (List String)
deriving DecidableEq, Repr

/-- Number of rows of a dataframe, read off the first column. -/
def DataFrame.nrows (df : DataFrame) : Nat :=
  match df.colData with
  | col :: _ => col.length
  | [] =>
    match df.indexData with
    | col :: _ => col.length
    | [] => 0

/-- Model of `df.set_index(list(df.columns[list(range(k))]))`: the first `k`
columns (by position) become the index, the rest stay in order. -/
def DataFrame.setIndex (df : DataFrame) (k : Nat) : DataFrame :=
  { indexCols := df.cols.take k
    indexDtypes := df.dtypes.take k
    indexData := df.colData.take k
    cols := df.cols.drop k
    dtypes := df.dtypes.drop k
    colData := df.colData.drop k }

/-- Model of `df.reset_index()`: named index columns are reinserted in front of
the ordinary columns; a default RangeIndex becomes an `index` column of dtype
`int64` holding the row numbers. -/
def DataFrame.resetIndex (df : DataFrame) : DataFrame :=
  if df.indexCols.isEmpty then
    { indexCols := [], indexDtypes := [], indexData := []
      cols := "index" :: df.cols
      dtypes := "int64" :: df.dtypes
      colData := (List.range df.nrows).map toString :: df.colData }
  else
    { indexCols := [], indexDtypes := [], indexData := []
      cols := df.indexCols ++ df.cols
      dtypes := df.indexDtypes ++ df.dtypes
      colData := df.indexData ++ df.colData }

/-- Result of executing a query on the source database: the
`cursor.description` column names (original casing), the pandas dtype string
of each column after `pd.DataFrame(cursor.fetchall())`, and the data. -/
structure QueryResult where
  colNames : List String
  dtypes : List String
  colData : List (List String)
deriving DecidableEq, Repr

/-- The source (read-side) database: what `cursor.execute` + `fetchall` yields
for a given query text, or the error it raises. -/
structure Database where
  run : String → Except PyExc QueryResult

/-- A pymysql connection handle: identity and open/closed state.
`Connection.close()` flips `isOpen`; executing on a closed handle raises
`InterfaceError`. -/
structure Connection where
  connId : Nat
  isOpen : Bool
deriving DecidableEq, Repr

/-- SQLAlchemy wire types produced by `dtype_to_sqldtype`. -/
inductive SqlDtype where
  | VARCHAR (length : Nat)
  | DateTime
  | FLOAT (precision : Nat)
  | INT
deriving DecidableEq, Repr

/-- One call of `df.to_sql(table_name, con=engine, if_exists=..., dtype=...)`
recorded against the destination database. -/
structure WriteRecord where
  tableName : String
  df : DataFrame
  ifExists : String
  sqlDtypes : List (String × SqlDtype)
deriving DecidableEq, Repr

/-- The mutable instance state of `SQLDatabaseClient`: the lazily created read
connection `self.db_client`, the lazily created write engine `self.db_engine`,
the optional store credentials, and the UTC date suffix fixed at construction. -/
structure SQLDatabaseClient where
  dbClient : Option Connection
  dbEngine : Option Unit
  credentialsStore : Option Unit
  suffix : String
deriving DecidableEq, Repr

/-- The world outside the client instance: the source database, the cache and
query directories as filename-keyed association lists, whether the cache
directory is writable, a counter of network connections opened, and the log of
writes that reached the destination database. -/
structure World where
  db : Database
  cacheFiles : List (String × DataFrame)
  queryFiles : List (String × String)
  cacheWritable : Bool
  connectionsOpened : Nat
  writes : List WriteRecord

/-- `self.cache_file_fmt = "{}_cache_{}.pickle"` applied to a query name and
the date suffix. -/
def cacheFileFmt (filename suffix : String) : String :=
  filename ++ "_cache_" ++ suffix ++ ".pickle"

/-- `self.query_file_fmt = "{}.sql"` applied to a query name. -/
def queryFileFmt (filename : String) : String := filename ++ ".sql"

/-- Model of `clear_cached_files`: delete every file in the cache directory
whose name starts with `filename`. -/
def clearCachedFiles (cacheFiles : List (String × DataFrame)) (filename : String) :
    List (String × DataFrame) :=
  cacheFiles.filter fun p => ! strStartsWith p.1 filename

/-- Final stage of the `load_data` query path (lines 122-128): evict stale
cache artifacts, then serialize the fresh frame when `use_cache` is set. -/
def loadDataCacheUpdate (filename : String) (useCache : Bool) (df : DataFrame)
    (c : SQLDatabaseClient) (w : World) :
    Except PyExc DataFrame × (SQLDatabaseClient × World) :=
  if !w.cacheWritable && w.cacheFiles.any (fun p => strStartsWith p.1 filename) then
    (.error .permissionError, (c, w))
  else
    let w := { w with cacheFiles := clearCachedFiles w.cacheFiles filename }
    if useCache then
      if w.cacheWritable then
        (.ok df, (c, { w with cacheFiles := (cacheFileFmt filename c.suffix, df) :: w.cacheFiles }))
      else
        (.error .permissionError, (c, w))
    else
      (.ok df, (c, w))

/-- Frame construction and connection close of the `load_data` query path
(lines 113-120): build the frame from the cursor data, lower-case the column
names, promote the first `index_cols` columns to the index (an out-of-range
count raises `IndexError` before the close), then close the connection. -/
def loadDataFinish (filename : String) (indexCols : Nat) (useCache : Bool)
    (qr : QueryResult) (conn : Connection) (c : SQLDatabaseClient) (w : World) :
    Except PyExc DataFrame × (SQLDatabaseClient × World) :=
  let df0 : DataFrame :=
    { indexCols := [], indexDtypes := [], indexData := []
      cols := qr.colNames.map strLower
      dtypes := qr.dtypes
      colData := qr.colData }
  if indexCols > df0.cols.length then (.error .indexError, (c, w))
  else
    let df := if indexCols > 0 then df0.setIndex indexCols else df0
    let c := { c with dbClient := some ⟨conn.connId, false⟩ }
    loadDataCacheUpdate filename useCache df c w

/-- Query execution stage of `load_data` (lines 111-112): executing on a
closed pymysql connection raises `InterfaceError`; otherwise the query runs
against the source database. -/
def loadDataExec (filename : String) (indexCols : Nat) (useCache : Bool) (query : String)
    (c : SQLDatabaseClient) (w : World) :
    Except PyExc DataFrame × (SQLDatabaseClient × World) :=
  match c.dbClient with
  | none => (.error .interfaceError, (c, w))
  | some conn =>
    if conn.isOpen then
      match w.db.run query with
      | .error e => (.error e, (c, w))
      | .ok qr => loadDataFinish filename indexCols useCache qr conn c w
    else
      (.error .interfaceError, (c, w))

/-- The else-branch of `load_data` (lines 95-110): read the query file
(raising on a missing file), lazily create the read connection if the handle
is unset, then execute. -/
def loadDataQueryPath (filename : String) (indexCols : Nat) (useCache : Bool)
    (c : SQLDatabaseClient) (w : World) :
    Except PyExc DataFrame × (SQLDatabaseClient × World) :=
  match w.queryFiles.lookup (queryFileFmt filename) with
  | none => (.error (.fileNotFoundError (queryFileFmt filename)), (c, w))
  | some query =>
    let cw :=
      match c.dbClient with
      | none =>
        ({ c with dbClient := some ⟨w.connectionsOpened, true⟩ },
         { w with connectionsOpened := w.connectionsOpened + 1 })
      | some _ => (c, w)
    loadDataExec filename indexCols useCache query cw.1 cw.2

/-- One attempt of the body of `load_data` (the code inside the `@retry`
decorator), threading the client state and the world: return the same-day
cache artifact when `use_cache` is set and it exists, else take the query
path. -/
def loadDataAttempt (filename : String) (indexCols : Nat) (useCache : Bool)
    (s : SQLDatabaseClient × World) :
    Except PyExc DataFrame × (SQLDatabaseClient × World) :=
  let (c, w) := s
  match w.cacheFiles.lookup (cacheFileFmt filename c.suffix), useCache with
  | some df, true => (.ok df, (c, w))
  | _, _ => loadDataQueryPath filename indexCols useCache c w

/-- Model of `dict.update` on an association list: replace the value at an
existing key in place, else append the binding. -/
def updateDict (d : List (String × SqlDtype)) (key : String) (v : SqlDtype) :
    List (String × SqlDtype) :=
  match d with
  | [] => [(key, v)]
  | (k, w) :: rest => if k = key then (key, v) :: rest else (k, w) :: updateDict rest key v

/-- The body of the `dtype_to_sqldtype` loop for one `(column, dtype)` pair:
the four sequential (non-exclusive) substring tests on `str(dtype)`, each
updating the dict. -/
def dtypeStep (acc : List (String × SqlDtype)) (p : String × String) :
    List (String × SqlDtype) :=
  let acc := if strContains p.2 "object" then updateDict acc p.1 (.VARCHAR 12) else acc
  let acc := if strContains p.2 "datetime" then updateDict acc p.1 .DateTime else acc
  let acc := if strContains p.2 "float" then updateDict acc p.1 (.FLOAT 12) else acc
  let acc := if strContains p.2 "int" then updateDict acc p.1 .INT else acc
  acc

/-- Model of `dtype_to_sqldtype`: fold the loop body over
`zip(df.columns, df.dtypes)` starting from the empty dict. -/
def dtypeToSqldtype (df : DataFrame) : List (String × SqlDtype) :=
  (df.cols.zip df.dtypes).foldl dtypeStep []

/-- One attempt of the body of `write_data` (the code inside the `@retry`
decorator). `sqlalchemy.create_engine` is lazy and opens no connection; the
network traffic happens in `df.to_sql`, which is recorded in the world. -/
def writeDataAttempt (df : DataFrame) (tableName ifExists : String)
    (s : SQLDatabaseClient × World) :
    Except PyExc Unit × (SQLDatabaseClient × World) :=
  let (c, w) := s
  match c.credentialsStore with
  | none =>
    (.error (.valueError "No destination is given, in local_config.yaml, to store data."),
     (c, w))
  | some _ =>
    let c := match c.dbEngine with
      | none => { c with dbEngine := some () }
      | some _ => c
    let sqlDtypes := dtypeToSqldtype df.resetIndex
    (.ok (),
     (c, { w with
            connectionsOpened := w.connectionsOpened + 1
            writes := w.writes ++ [⟨tableName, df, ifExists, sqlDtypes⟩] }))

/-- Outcome of a tenacity-retried call: the final result (`RetryError`-wrapped
on exhaustion), the final state, and the number of attempts made. -/
structure RetryOutcome (σ : Type) (α : Type) where
  result : Except PyExc α
  state : σ
  attempts : Nat
deriving Repr

/-- The tenacity retry loop with `stop_after_attempt` fuel and no `reraise`:
run the attempt; on success return its value, on failure retry until the fuel
runs out, then raise `RetryError` wrapping the last exception. The fuel-zero
case is unreachable for the decorator's `stop_after_attempt(10)`. -/
def retryRun {σ α : Type} (f : σ → Except PyExc α × σ) : Nat → σ → RetryOutcome σ α
  | 0, s => ⟨.error (.retryError .indexError), s, 0⟩
  | n + 1, s =>
    match f s with
    | (.ok a, s1) => ⟨.ok a, s1, 1⟩
    | (.error e, s1) =>
      match n with
      | 0 => ⟨.error (.retryError e), s1, 1⟩
      | m + 1 =>
        let r := retryRun f (m + 1) s1
        ⟨r.result, r.state, r.attempts + 1⟩

/-- `load_data` as called from outside: the attempt body under
`@retry(stop=stop_after_attempt(10), ...)`. -/
def loadData (filename : String) (indexCols : Nat) (useCache : Bool)
    (s : SQLDatabaseClient × World) : RetryOutcome (SQLDatabaseClient × World) DataFrame :=
  retryRun (loadDataAttempt filename indexCols useCache) 10 s

/-- `write_data` as called from outside: the attempt body under
`@retry(stop=stop_after_attempt(10), ...)`. -/
def writeData (df : DataFrame) (tableName ifExists : String)
    (s : SQLDatabaseClient × World) : RetryOutcome (SQLDatabaseClient × World) Unit :=
  retryRun (writeDataAttempt df tableName ifExists) 10 s

/-- Retry over an abstract attempt-indexed operation (attempt numbers start
at 1), for reasoning about the retry policy independently of the two bodies. -/
def retryAttempts {α : Type} (att : Nat → Except PyExc α) : RetryOutcome Nat α :=
  retryRun (fun k => (att k, k + 1)) 10 1


/-- State seen by attempt `k + 1` (0-indexed trajectory of the retried body). -/
def attState {σ α : Type} (f : σ → Except PyExc α × σ) (s : σ) : Nat → σ
  | 0 => s
  | k + 1 => (f (attState f s k)).2

theorem attState_shift {σ α : Type} (f : σ → Except PyExc α × σ) (s : σ) (k : Nat) :
    attState f (f s).2 k = attState f s (k + 1) := by
  induction k with
  | zero => rfl
  | succ m ih => simp [attState, ih]

theorem retryRun_const_error {σ α : Type} {f : σ → Except PyExc α × σ} {s : σ} {e : PyExc}
    (hf : f s = (.error e, s)) :
    ∀ n, retryRun f (n + 1) s = ⟨.error (.retryError e), s, n + 1⟩ := by
  intro n
  induction n with
  | zero => simp [retryRun, hf]
  | succ m ih => simp [retryRun, hf, ih]

theorem retryRun_first_ok {σ α : Type} {f : σ → Except PyExc α × σ} {s s1 : σ} {a : α}
    (hf : f s = (.ok a, s1)) (n : Nat) :
    retryRun f (n + 1) s = ⟨.ok a, s1, 1⟩ := by
  simp [retryRun, hf]

theorem retryRun_allfail {σ α : Type} (f : σ → Except PyExc α × σ) :
    ∀ (n : Nat) (errs : Nat → PyExc) (s : σ),
      (∀ k, k ≤ n → (f (attState f s k)).1 = .error (errs k)) →
      retryRun f (n + 1) s = ⟨.error (.retryError (errs n)), attState f s (n + 1), n + 1⟩ := by
  intro n
  induction n with
  | zero =>
    intro errs s h
    have h0 := h 0 (by omega)
    simp only [attState] at h0
    rcases hfs : f s with ⟨r, s1⟩
    rw [hfs] at h0; simp at h0
    simp [retryRun, hfs, h0, attState]
  | succ m ih =>
    intro errs s h
    have h0 := h 0 (by omega)
    simp only [attState] at h0
    rcases hfs : f s with ⟨r, s1⟩
    rw [hfs] at h0; simp at h0
    have hs1 : s1 = (f s).2 := by rw [hfs]
    have hrest : ∀ k, k ≤ m → (f (attState f s1 k)).1 = .error (errs (k + 1)) := by
      intro k hk
      rw [hs1, attState_shift]
      exact h (k + 1) (by omega)
    have hrec := ih (fun k => errs (k + 1)) s1 hrest
    simp [retryRun, hfs, h0, hrec]
    rw [hs1, attState_shift]

theorem retryRun_ok_at {σ α : Type} (f : σ → Except PyExc α × σ) (a : α) :
    ∀ (n k : Nat) (s : σ), k < n →
      (∀ j, j < k → ∃ e, (f (attState f s j)).1 = .error e) →
      (f (attState f s k)).1 = .ok a →
      retryRun f n s = ⟨.ok a, (f (attState f s k)).2, k + 1⟩ := by
  intro n
  induction n with
  | zero => intro k s hk _ _; omega
  | succ m ih =>
    intro k s hk hfail hok
    cases k with
    | zero =>
      simp only [attState] at hok ⊢
      rcases hfs : f s with ⟨r, s1⟩
      rw [hfs] at hok; simp at hok
      simp [retryRun, hfs, hok]
    | succ kk =>
      obtain ⟨e0, he0⟩ := hfail 0 (by omega)
      simp only [attState] at he0
      rcases hfs : f s with ⟨r, s1⟩
      rw [hfs] at he0; simp at he0
      have hs1 : s1 = (f s).2 := by rw [hfs]
      cases m with
      | zero => omega
      | succ mm =>
        have hfail2 : ∀ j, j < kk → ∃ e, (f (attState f s1 j)).1 = .error e := by
          intro j hj
          rw [hs1, attState_shift]
          exact hfail (j + 1) (by omega)
        have hok2 : (f (attState f s1 kk)).1 = .ok a := by
          rw [hs1, attState_shift]; exact hok
        have hrec := ih kk s1 (by omega) hfail2 hok2
        simp [retryRun, hfs, he0, hrec]
        rw [hs1, attState_shift]

theorem retryRun_one_ok {σ α : Type} {f : σ → Except PyExc α × σ} {s s1 : σ} {a : α}
    (hfs : f s = (.ok a, s1)) (n : Nat) :
    retryRun f (n + 1) s = ⟨.ok a, s1, 1⟩ := by
  simp [retryRun, hfs]

theorem retryRun_one_error {σ α : Type} {f : σ → Except PyExc α × σ} {s s1 : σ} {e : PyExc}
    (hfs : f s = (.error e, s1)) : retryRun f 1 s = ⟨.error (.retryError e), s1, 1⟩ := by
  simp [retryRun, hfs]

theorem retryRun_step_error {σ α : Type} {f : σ → Except PyExc α × σ} {s s1 : σ} {e : PyExc}
    (hfs : f s = (.error e, s1)) (m : Nat) :
    retryRun f (m + 2) s =
      ⟨(retryRun f (m + 1) s1).result, (retryRun f (m + 1) s1).state,
        (retryRun f (m + 1) s1).attempts + 1⟩ := by
  conv_lhs => rw [retryRun]
  rw [hfs]

theorem retryRun_inv {σ α : Type} (f : σ → Except PyExc α × σ) (I : σ → Prop) (P : α → Prop)
    (hf : ∀ s, I s → I (f s).2 ∧ ∀ a, (f s).1 = .ok a → P a) :
    ∀ n s, I s → I (retryRun f n s).state ∧ ∀ a, (retryRun f n s).result = .ok a → P a := by
  intro n
  induction n with
  | zero =>
    intro s hs
    refine ⟨hs, fun a h => ?_⟩
    simp [retryRun] at h
  | succ m ih =>
    intro s hs
    have h1 := hf s hs
    rcases hfs : f s with ⟨r, s1⟩
    rw [hfs] at h1
    cases r with
    | ok a =>
      rw [retryRun_one_ok hfs]
      refine ⟨h1.1, fun b hb => ?_⟩
      have hb2 : a = b := by simpa using hb
      exact hb2 ▸ h1.2 a rfl
    | error e =>
      cases m with
      | zero =>
        rw [retryRun_one_error hfs]
        exact ⟨h1.1, fun a h => by cases h⟩
      | succ mm =>
        have hrec := ih s1 h1.1
        rw [retryRun_step_error hfs]
        exact ⟨hrec.1, hrec.2⟩

theorem toNat_toLower (ch : Char) :
    ch.toLower.toNat = if ch.toNat ≥ 65 ∧ ch.toNat ≤ 90 then ch.toNat + 32 else ch.toNat := by
  by_cases h : ch.toNat ≥ 65 ∧ ch.toNat ≤ 90
  · have hv : (ch.toNat + 32).isValidChar := Or.inl (by omega)
    simp only [Char.toLower, if_pos h]
    rw [Char.ofNat, dif_pos hv]
    rfl
  · simp only [Char.toLower, if_neg h]

theorem toLower_eq_self (c : Char) (h : ¬(c.toNat ≥ 65 ∧ c.toNat ≤ 90)) : c.toLower = c := by
  simp only [Char.toLower, if_neg h]

theorem char_toLower_idem (ch : Char) : ch.toLower.toLower = ch.toLower := by
  apply toLower_eq_self
  rw [toNat_toLower]
  by_cases h : ch.toNat ≥ 65 ∧ ch.toNat ≤ 90
  · rw [if_pos h]; omega
  · rw [if_neg h]; exact h

theorem strLower_idem (s : String) : strLower (strLower s) = strLower s := by
  apply String.ext
  simp only [strLower, List.map_map]
  exact List.map_congr_left fun ch _ => char_toLower_idem ch

theorem strStartsWith_trans {a b c : String} (h1 : strStartsWith b a = true)
    (h2 : strStartsWith c b = true) : strStartsWith c a = true := by
  simp only [strStartsWith, List.isPrefixOf_iff_prefix] at *
  exact h1.trans h2

theorem strStartsWith_cacheFileFmt (Q d : String) : strStartsWith (cacheFileFmt Q d) Q = true := by
  simp only [strStartsWith, cacheFileFmt, List.isPrefixOf_iff_prefix, String.data_append]
  exact ((List.prefix_append _ _).trans (List.prefix_append _ _)).trans (List.prefix_append _ _)

theorem cacheFileFmt_suffix_inj {Q d1 d2 : String} (h : cacheFileFmt Q d1 = cacheFileFmt Q d2) :
    d1 = d2 := by
  have hd : (cacheFileFmt Q d1).data = (cacheFileFmt Q d2).data := by rw [h]
  simp only [cacheFileFmt, String.data_append] at hd
  exact String.ext (List.append_cancel_left (List.append_cancel_right hd))

theorem lookup_clear_of_starts (l : List (String × DataFrame)) (Q key : String)
    (hkey : strStartsWith key Q = true) :
    (clearCachedFiles l Q).lookup key = none := by
  induction l with
  | nil => rfl
  | cons p rest ih =>
    obtain ⟨k1, v1⟩ := p
    by_cases h : strStartsWith k1 Q
    · simpa [clearCachedFiles, h] using ih
    · simp only [Bool.not_eq_true] at h
      have hne : (key == k1) = false := by
        simp only [beq_eq_false_iff_ne]
        exact fun he => by rw [he] at hkey; rw [hkey] at h; cases h
      simp only [clearCachedFiles, List.filter_cons, h, Bool.not_false, if_true, List.lookup, hne]
      simp only [clearCachedFiles] at ih
      exact ih

theorem clear_filter_empty (l : List (String × DataFrame)) (Q : String) :
    (clearCachedFiles l Q).filter (fun p => strStartsWith p.1 Q) = [] := by
  induction l with
  | nil => rfl
  | cons p rest ih =>
    cases hsw : strStartsWith p.1 Q <;>
      simp only [clearCachedFiles, List.filter_cons, hsw, Bool.not_true, Bool.not_false,
        if_true, if_false] at ih ⊢ <;>
      exact ih

/-- The dataframe `load_data` builds on the query path: lower-cased column
names from the cursor description, then the first `index_cols` columns
promoted to the index. -/
def mkLoadFrame (qr : QueryResult) (ic : Nat) : DataFrame :=
  let df0 : DataFrame := ⟨[], [], [], qr.colNames.map strLower, qr.dtypes, qr.colData⟩
  if ic > 0 then df0.setIndex ic else df0

/-! Stage equations for `loadDataCacheUpdate`. -/

theorem loadDataCacheUpdate_blocked (fn : String) (uc : Bool) (df : DataFrame)
    (c : SQLDatabaseClient) (w : World)
    (hb : (!w.cacheWritable && w.cacheFiles.any fun p => strStartsWith p.1 fn) = true) :
    loadDataCacheUpdate fn uc df c w = (.error .permissionError, (c, w)) := by
  simp [loadDataCacheUpdate, hb]

theorem loadDataCacheUpdate_nocache (fn : String) (df : DataFrame)
    (c : SQLDatabaseClient) (w : World)
    (hb : (!w.cacheWritable && w.cacheFiles.any fun p => strStartsWith p.1 fn) = false) :
    loadDataCacheUpdate fn false df c w =
      (.ok df, (c, { w with cacheFiles := clearCachedFiles w.cacheFiles fn })) := by
  simp [loadDataCacheUpdate, hb]

theorem loadDataCacheUpdate_cache (fn : String) (df : DataFrame)
    (c : SQLDatabaseClient) (w : World) (hwr : w.cacheWritable = true) :
    loadDataCacheUpdate fn true df c w =
      (.ok df, (c, { w with cacheFiles :=
        (cacheFileFmt fn c.suffix, df) :: clearCachedFiles w.cacheFiles fn })) := by
  have hb : (!w.cacheWritable && w.cacheFiles.any fun p => strStartsWith p.1 fn) = false := by
    simp [hwr]
  simp [loadDataCacheUpdate, hb, hwr]

theorem loadDataCacheUpdate_cache_unwritable (fn : String) (df : DataFrame)
    (c : SQLDatabaseClient) (w : World) (hwr : w.cacheWritable = false)
    (hb : (!w.cacheWritable && w.cacheFiles.any fun p => strStartsWith p.1 fn) = false) :
    loadDataCacheUpdate fn true df c w =
      (.error .permissionError, (c, { w with cacheFiles := clearCachedFiles w.cacheFiles fn })) := by
  simp [loadDataCacheUpdate, hb, hwr]
  intro x y hxy hsw
  rw [hwr] at hb
  simp only [Bool.not_false, Bool.true_and, List.any_eq_false] at hb
  exact absurd hsw (by simpa using hb (x, y) hxy)

/-! Stage equations for `loadDataFinish`, `loadDataExec`, `loadDataQueryPath`
and `loadDataAttempt`. -/

theorem loadDataFinish_indexError {ic : Nat} {qr : QueryResult} (fn : String) (uc : Bool)
    (conn : Connection) (c : SQLDatabaseClient) (w : World)
    (hlen : ic > qr.colNames.length) :
    loadDataFinish fn ic uc qr conn c w = (.error .indexError, (c, w)) := by
  have h2 : ic > (qr.colNames.map strLower).length := by simpa using hlen
  simp only [loadDataFinish]
  rw [if_pos h2]

theorem loadDataFinish_ok {ic : Nat} {qr : QueryResult} (fn : String) (uc : Bool)
    (conn : Connection) (c : SQLDatabaseClient) (w : World)
    (hlen : ic ≤ qr.colNames.length) :
    loadDataFinish fn ic uc qr conn c w =
      loadDataCacheUpdate fn uc (mkLoadFrame qr ic)
        { c with dbClient := some ⟨conn.connId, false⟩ } w := by
  have h2 : ¬ ic > (qr.colNames.map strLower).length := by
    simp only [List.length_map]; omega
  simp only [loadDataFinish, mkLoadFrame]
  rw [if_neg h2]

theorem loadDataExec_noconn {c : SQLDatabaseClient} (fn : String) (ic : Nat) (uc : Bool)
    (q : String) (w : World) (hc : c.dbClient = none) :
    loadDataExec fn ic uc q c w = (.error .interfaceError, (c, w)) := by
  simp [loadDataExec, hc]

theorem loadDataExec_closed {c : SQLDatabaseClient} {conn : Connection} (fn : String)
    (ic : Nat) (uc : Bool) (q : String) (w : World)
    (hc : c.dbClient = some conn) (ho : conn.isOpen = false) :
    loadDataExec fn ic uc q c w = (.error .interfaceError, (c, w)) := by
  simp [loadDataExec, hc, ho]

theorem loadDataExec_dbError (fn : String) (ic : Nat) (uc : Bool) (q : String)
    (c : SQLDatabaseClient) (conn : Connection) (w : World) (e : PyExc)
    (hc : c.dbClient = some conn) (ho : conn.isOpen = true)
    (hr : w.db.run q = .error e) :
    loadDataExec fn ic uc q c w = (.error e, (c, w)) := by
  simp [loadDataExec, hc, ho, hr]

theorem loadDataExec_run (fn : String) (ic : Nat) (uc : Bool) (q : String)
    (c : SQLDatabaseClient) (conn : Connection) (w : World) (qr : QueryResult)
    (hc : c.dbClient = some conn) (ho : conn.isOpen = true)
    (hr : w.db.run q = .ok qr) :
    loadDataExec fn ic uc q c w = loadDataFinish fn ic uc qr conn c w := by
  simp [loadDataExec, hc, ho, hr]

theorem loadDataQueryPath_nofile {w : World} {fn : String} (ic : Nat) (uc : Bool)
    (c : SQLDatabaseClient) (hq : w.queryFiles.lookup (queryFileFmt fn) = none) :
    loadDataQueryPath fn ic uc c w =
      (.error (.fileNotFoundError (queryFileFmt fn)), (c, w)) := by
  simp [loadDataQueryPath, hq]

theorem loadDataQueryPath_fresh {w : World} {fn qtext : String} {c : SQLDatabaseClient}
    (ic : Nat) (uc : Bool)
    (hq : w.queryFiles.lookup (queryFileFmt fn) = some qtext)
    (hc : c.dbClient = none) :
    loadDataQueryPath fn ic uc c w =
      loadDataExec fn ic uc qtext { c with dbClient := some ⟨w.connectionsOpened, true⟩ }
        { w with connectionsOpened := w.connectionsOpened + 1 } := by
  simp [loadDataQueryPath, hq, hc]

theorem loadDataQueryPath_reuse {w : World} {fn qtext : String} {c : SQLDatabaseClient}
    {conn : Connection} (ic : Nat) (uc : Bool)
    (hq : w.queryFiles.lookup (queryFileFmt fn) = some qtext)
    (hc : c.dbClient = some conn) :
    loadDataQueryPath fn ic uc c w = loadDataExec fn ic uc qtext c w := by
  simp [loadDataQueryPath, hq, hc]

theorem loadDataAttempt_cache_hit
    {c : SQLDatabaseClient} {w : World} {fn : String} {df : DataFrame} (ic : Nat)
    (hl : w.cacheFiles.lookup (cacheFileFmt fn c.suffix) = some df) :
    loadDataAttempt fn ic true (c, w) = (.ok df, (c, w)) := by
  simp [loadDataAttempt, hl]

theorem loadDataAttempt_query
    {c : SQLDatabaseClient} {w : World} {fn : String} (ic : Nat) (uc : Bool)
    (hnc : w.cacheFiles.lookup (cacheFileFmt fn c.suffix) = none ∨ uc = false) :
    loadDataAttempt fn ic uc (c, w) = loadDataQueryPath fn ic uc c w := by
  rcases hnc with hnc | hnc
  · cases uc <;> simp [loadDataAttempt, hnc]
  · subst hnc
    rcases hl : w.cacheFiles.lookup (cacheFileFmt fn c.suffix) with _ | df <;>
      simp [loadDataAttempt, hl]

/-! Characterizations of a whole `load_data` attempt in the configurations the
claims are about. -/

theorem loadDataAttempt_query_fresh
    {c : SQLDatabaseClient} {w : World} {fn qtext : String} {qr : QueryResult} {ic : Nat}
    (hnc : w.cacheFiles.lookup (cacheFileFmt fn c.suffix) = none)
    (hq : w.queryFiles.lookup (queryFileFmt fn) = some qtext)
    (hconn : c.dbClient = none)
    (hdb : w.db.run qtext = .ok qr)
    (hic : ic ≤ qr.colNames.length)
    (hwr : w.cacheWritable = true) :
    loadDataAttempt fn ic true (c, w) =
      (.ok (mkLoadFrame qr ic),
       ({ c with dbClient := some ⟨w.connectionsOpened, false⟩ },
        { w with
            connectionsOpened := w.connectionsOpened + 1
            cacheFiles := (cacheFileFmt fn c.suffix, mkLoadFrame qr ic) ::
              clearCachedFiles w.cacheFiles fn })) := by
  rw [loadDataAttempt_query ic true (Or.inl hnc), loadDataQueryPath_fresh ic true hq hconn,
    loadDataExec_run fn ic true qtext { c with dbClient := some ⟨w.connectionsOpened, true⟩ }
      ⟨w.connectionsOpened, true⟩ { w with connectionsOpened := w.connectionsOpened + 1 } qr
      rfl rfl hdb,
    loadDataFinish_ok fn true ⟨w.connectionsOpened, true⟩
      { c with dbClient := some ⟨w.connectionsOpened, true⟩ }
      { w with connectionsOpened := w.connectionsOpened + 1 } hic,
    loadDataCacheUpdate_cache fn (mkLoadFrame qr ic) _
      { w with connectionsOpened := w.connectionsOpened + 1 }
      (show ({ w with connectionsOpened := w.connectionsOpened + 1 } : World).cacheWritable = true
        from hwr)]

theorem loadDataAttempt_query_fresh_nocache
    {c : SQLDatabaseClient} {w : World} {fn qtext : String} {qr : QueryResult} {ic : Nat}
    (hq : w.queryFiles.lookup (queryFileFmt fn) = some qtext)
    (hconn : c.dbClient = none)
    (hdb : w.db.run qtext = .ok qr)
    (hic : ic ≤ qr.colNames.length)
    (hwr : w.cacheWritable = true) :
    loadDataAttempt fn ic false (c, w) =
      (.ok (mkLoadFrame qr ic),
       ({ c with dbClient := some ⟨w.connectionsOpened, false⟩ },
        { w with
            connectionsOpened := w.connectionsOpened + 1
            cacheFiles := clearCachedFiles w.cacheFiles fn })) := by
  rw [loadDataAttempt_query ic false (Or.inr rfl), loadDataQueryPath_fresh ic false hq hconn,
    loadDataExec_run fn ic false qtext { c with dbClient := some ⟨w.connectionsOpened, true⟩ }
      ⟨w.connectionsOpened, true⟩ { w with connectionsOpened := w.connectionsOpened + 1 } qr
      rfl rfl hdb,
    loadDataFinish_ok fn false ⟨w.connectionsOpened, true⟩
      { c with dbClient := some ⟨w.connectionsOpened, true⟩ }
      { w with connectionsOpened := w.connectionsOpened + 1 } hic,
    loadDataCacheUpdate_nocache fn (mkLoadFrame qr ic) _
      { w with connectionsOpened := w.connectionsOpened + 1 }
      (by simp [hwr])]

theorem loadDataAttempt_query_reuse_nocache
    {c : SQLDatabaseClient} {w : World} {fn qtext : String} {qr : QueryResult}
    {conn : Connection} {ic : Nat}
    (hq : w.queryFiles.lookup (queryFileFmt fn) = some qtext)
    (hconn : c.dbClient = some conn)
    (hopen : conn.isOpen = true)
    (hdb : w.db.run qtext = .ok qr)
    (hic : ic ≤ qr.colNames.length)
    (hwr : w.cacheWritable = true) :
    loadDataAttempt fn ic false (c, w) =
      (.ok (mkLoadFrame qr ic),
       ({ c with dbClient := some ⟨conn.connId, false⟩ },
        { w with cacheFiles := clearCachedFiles w.cacheFiles fn })) := by
  rw [loadDataAttempt_query ic false (Or.inr rfl), loadDataQueryPath_reuse ic false hq hconn,
    loadDataExec_run fn ic false qtext c conn w qr hconn hopen hdb,
    loadDataFinish_ok fn false conn c w hic,
    loadDataCacheUpdate_nocache fn (mkLoadFrame qr ic) _ w (by simp [hwr])]

theorem loadDataAttempt_closed_conn
    {c : SQLDatabaseClient} {w : World} {fn qtext : String} {conn : Connection}
    (ic : Nat) (uc : Bool)
    (hnc : w.cacheFiles.lookup (cacheFileFmt fn c.suffix) = none ∨ uc = false)
    (hq : w.queryFiles.lookup (queryFileFmt fn) = some qtext)
    (hconn : c.dbClient = some conn)
    (hclosed : conn.isOpen = false) :
    loadDataAttempt fn ic uc (c, w) = (.error .interfaceError, (c, w)) := by
  rw [loadDataAttempt_query ic uc hnc, loadDataQueryPath_reuse ic uc hq hconn,
    loadDataExec_closed fn ic uc qtext w hconn hclosed]

theorem loadDataAttempt_missing_query
    {c : SQLDatabaseClient} {w : World} {fn : String} (ic : Nat) (uc : Bool)
    (hnc : w.cacheFiles.lookup (cacheFileFmt fn c.suffix) = none ∨ uc = false)
    (hq : w.queryFiles.lookup (queryFileFmt fn) = none) :
    loadDataAttempt fn ic uc (c, w) =
      (.error (.fileNotFoundError (queryFileFmt fn)), (c, w)) := by
  rw [loadDataAttempt_query ic uc hnc, loadDataQueryPath_nofile ic uc c hq]

theorem mem_of_lookup_eq_some {α β : Type} [BEq α] [LawfulBEq α] {l : List (α × β)} {k : α} {v : β}
    (h : l.lookup k = some v) : (k, v) ∈ l := by
  induction l with
  | nil => cases h
  | cons p rest ih =>
    obtain ⟨k1, v1⟩ := p
    rw [List.lookup_cons] at h
    rcases hk : (k == k1) with _ | _
    · rw [hk] at h
      exact List.mem_cons_of_mem _ (ih h)
    · rw [hk] at h
      have hkk : k = k1 := eq_of_beq hk
      cases h
      subst hkk
      exact List.mem_cons_self _ _

/-- The dataframe returned by a load has only lower-case column names
(index columns included). -/
def dfLowered (df : DataFrame) : Prop :=
  (∀ x ∈ df.indexCols, strLower x = x) ∧ (∀ x ∈ df.cols, strLower x = x)

theorem mkLoadFrame_lowered (qr : QueryResult) (ic : Nat) : dfLowered (mkLoadFrame qr ic) := by
  have hmap : ∀ x ∈ qr.colNames.map strLower, strLower x = x := by
    intro x hx
    obtain ⟨y, _, rfl⟩ := List.mem_map.mp hx
    exact strLower_idem y
  by_cases h : ic > 0 <;>
    simp only [mkLoadFrame, dfLowered, DataFrame.setIndex, if_pos, if_neg, h, if_true, if_false]
  · exact ⟨fun x hx => hmap x (List.mem_of_mem_take hx),
      fun x hx => hmap x (List.mem_of_mem_drop hx)⟩
  · exact ⟨fun x hx => absurd hx (List.not_mem_nil x), hmap⟩

theorem builtFrame_lowered (qr : QueryResult) (ic : Nat) :
    dfLowered (if ic > 0 then
        (⟨[], [], [], qr.colNames.map strLower, qr.dtypes, qr.colData⟩ : DataFrame).setIndex ic
      else ⟨[], [], [], qr.colNames.map strLower, qr.dtypes, qr.colData⟩) :=
  mkLoadFrame_lowered qr ic

theorem loadDataCacheUpdate_lowered (fn : String) (uc : Bool) (df : DataFrame)
    (c : SQLDatabaseClient) (w : World)
    (hI : ∀ p ∈ w.cacheFiles, dfLowered p.2) (hdf : dfLowered df) :
    (∀ p ∈ (loadDataCacheUpdate fn uc df c w).2.2.cacheFiles, dfLowered p.2) ∧
    (∀ d, (loadDataCacheUpdate fn uc df c w).1 = .ok d → dfLowered d) := by
  have hclear : ∀ p ∈ clearCachedFiles w.cacheFiles fn, dfLowered p.2 := fun p hp =>
    hI p (List.mem_of_mem_filter hp)
  rcases hb : (!w.cacheWritable && w.cacheFiles.any fun p => strStartsWith p.1 fn) with _ | _
  · cases uc
    · rw [loadDataCacheUpdate_nocache fn df c w hb]
      exact ⟨hclear, fun d hd => by simp at hd; exact hd ▸ hdf⟩
    · rcases hwr : w.cacheWritable with _ | _
      · rw [loadDataCacheUpdate_cache_unwritable fn df c w hwr hb]
        exact ⟨hclear, fun d hd => by cases hd⟩
      · rw [loadDataCacheUpdate_cache fn df c w hwr]
        refine ⟨fun p hp => ?_, fun d hd => by simp at hd; exact hd ▸ hdf⟩
        rcases List.mem_cons.mp hp with h | h
        · rw [h]; exact hdf
        · exact hclear p h
  · rw [loadDataCacheUpdate_blocked fn uc df c w hb]
    exact ⟨hI, fun d hd => by cases hd⟩

theorem loadDataFinish_lowered (fn : String) (ic : Nat) (uc : Bool) (qr : QueryResult)
    (conn : Connection) (c : SQLDatabaseClient) (w : World)
    (hI : ∀ p ∈ w.cacheFiles, dfLowered p.2) :
    (∀ p ∈ (loadDataFinish fn ic uc qr conn c w).2.2.cacheFiles, dfLowered p.2) ∧
    (∀ d, (loadDataFinish fn ic uc qr conn c w).1 = .ok d → dfLowered d) := by
  by_cases hlen : ic ≤ qr.colNames.length
  · rw [loadDataFinish_ok fn uc conn c w hlen]
    exact loadDataCacheUpdate_lowered fn uc _ _ w hI (mkLoadFrame_lowered qr ic)
  · rw [loadDataFinish_indexError fn uc conn c w (by omega)]
    exact ⟨hI, fun d hd => by cases hd⟩

theorem loadDataExec_lowered (fn : String) (ic : Nat) (uc : Bool) (q : String)
    (c : SQLDatabaseClient) (w : World)
    (hI : ∀ p ∈ w.cacheFiles, dfLowered p.2) :
    (∀ p ∈ (loadDataExec fn ic uc q c w).2.2.cacheFiles, dfLowered p.2) ∧
    (∀ d, (loadDataExec fn ic uc q c w).1 = .ok d → dfLowered d) := by
  rcases hc : c.dbClient with _ | conn
  · rw [loadDataExec_noconn fn ic uc q w hc]
    exact ⟨hI, fun d hd => by cases hd⟩
  · rcases ho : conn.isOpen with _ | _
    · rw [loadDataExec_closed fn ic uc q w hc ho]
      exact ⟨hI, fun d hd => by cases hd⟩
    · rcases hr : w.db.run q with e | qr
      · rw [loadDataExec_dbError fn ic uc q c conn w e hc ho hr]
        exact ⟨hI, fun d hd => by cases hd⟩
      · rw [loadDataExec_run fn ic uc q c conn w qr hc ho hr]
        exact loadDataFinish_lowered fn ic uc qr conn c w hI

theorem loadDataQueryPath_lowered (fn : String) (ic : Nat) (uc : Bool)
    (c : SQLDatabaseClient) (w : World)
    (hI : ∀ p ∈ w.cacheFiles, dfLowered p.2) :
    (∀ p ∈ (loadDataQueryPath fn ic uc c w).2.2.cacheFiles, dfLowered p.2) ∧
    (∀ d, (loadDataQueryPath fn ic uc c w).1 = .ok d → dfLowered d) := by
  rcases hq : w.queryFiles.lookup (queryFileFmt fn) with _ | qtext
  · rw [loadDataQueryPath_nofile ic uc c hq]
    exact ⟨hI, fun d hd => by cases hd⟩
  · rcases hc : c.dbClient with _ | conn
    · rw [loadDataQueryPath_fresh ic uc hq hc]
      exact loadDataExec_lowered fn ic uc qtext _ _ hI
    · rw [loadDataQueryPath_reuse ic uc hq hc]
      exact loadDataExec_lowered fn ic uc qtext c w hI

theorem loadDataAttempt_lowered (fn : String) (ic : Nat) (uc : Bool)
    (s : SQLDatabaseClient × World) (hI : ∀ p ∈ s.2.cacheFiles, dfLowered p.2) :
    (∀ p ∈ (loadDataAttempt fn ic uc s).2.2.cacheFiles, dfLowered p.2) ∧
    (∀ d, (loadDataAttempt fn ic uc s).1 = .ok d → dfLowered d) := by
  obtain ⟨c, w⟩ := s
  simp only at hI
  rcases hl : w.cacheFiles.lookup (cacheFileFmt fn c.suffix) with _ | df0
  · rw [loadDataAttempt_query ic uc (Or.inl hl)]
    exact loadDataQueryPath_lowered fn ic uc c w hI
  · cases uc
    · rw [loadDataAttempt_query ic false (Or.inr rfl)]
      exact loadDataQueryPath_lowered fn ic false c w hI
    · rw [loadDataAttempt_cache_hit ic hl]
      refine ⟨hI, fun d hd => ?_⟩
      simp at hd
      rw [← hd]
      exact hI _ (mem_of_lookup_eq_some hl)

theorem writeDataAttempt_no_store (df : DataFrame) (tn ie : String)
    (c : SQLDatabaseClient) (w : World) (h : c.credentialsStore = none) :
    writeDataAttempt df tn ie (c, w) =
      (.error (.valueError "No destination is given, in local_config.yaml, to store data."),
       (c, w)) := by
  simp [writeDataAttempt, h]

theorem writeDataAttempt_store (df : DataFrame) (tn ie : String)
    (c : SQLDatabaseClient) (w : World) (h : c.credentialsStore = some ()) :
    writeDataAttempt df tn ie (c, w) =
      (.ok (), ({ c with dbEngine := some () },
        { w with
            connectionsOpened := w.connectionsOpened + 1
            writes := w.writes ++ [⟨tn, df, ie, dtypeToSqldtype df.resetIndex⟩] })) := by
  obtain ⟨dc, de, cs, sfx⟩ := c
  simp only at h
  subst h
  rcases de with _ | u
  · simp [writeDataAttempt]
  · cases u
    simp [writeDataAttempt]

/-- The wire type that the `dtype_to_sqldtype` loop nets out to for a single
dtype string: the last matching substring test wins, so `int` takes priority
over `float`, `datetime` and `object`. -/
def classifyDtype (dt : String) : Option SqlDtype :=
  if strContains dt "int" then some .INT
  else if strContains dt "float" then some (.FLOAT 12)
  else if strContains dt "datetime" then some .DateTime
  else if strContains dt "object" then some (.VARCHAR 12)
  else none

theorem updateDict_lookup_self (d : List (String × SqlDtype)) (k : String) (v : SqlDtype) :
    (updateDict d k v).lookup k = some v := by
  induction d with
  | nil => simp [updateDict, List.lookup]
  | cons p rest ih =>
    obtain ⟨k1, v1⟩ := p
    by_cases hk : k1 = k
    · subst hk
      simp [updateDict, List.lookup]
    · have hne : (k == k1) = false := by
        simp only [beq_eq_false_iff_ne]
        exact fun he => hk he.symm
      simp [updateDict, hk, List.lookup, hne, ih]

theorem updateDict_lookup_ne (d : List (String × SqlDtype)) (k k2 : String) (v : SqlDtype)
    (hne : k2 ≠ k) : (updateDict d k v).lookup k2 = d.lookup k2 := by
  have hbe : (k2 == k) = false := by simp only [beq_eq_false_iff_ne]; exact hne
  induction d with
  | nil => simp [updateDict, List.lookup, hbe]
  | cons p rest ih =>
    obtain ⟨k1, v1⟩ := p
    by_cases hk : k1 = k
    · subst hk
      simp [updateDict, List.lookup, hbe]
    · simp [updateDict, hk, List.lookup, ih]

theorem updateDict_overwrite (d : List (String × SqlDtype)) (k : String) (v1 v2 : SqlDtype) :
    updateDict (updateDict d k v1) k v2 = updateDict d k v2 := by
  induction d with
  | nil => simp [updateDict]
  | cons p rest ih =>
    obtain ⟨k1, w1⟩ := p
    by_cases hk : k1 = k
    · subst hk
      simp [updateDict]
    · simp [updateDict, hk, ih]

theorem dtypeStep_eq (acc : List (String × SqlDtype)) (p : String × String) :
    dtypeStep acc p =
      match classifyDtype p.2 with
      | some v => updateDict acc p.1 v
      | none => acc := by
  obtain ⟨name, dt⟩ := p
  by_cases ho : strContains dt "object" <;>
    by_cases hd : strContains dt "datetime" <;>
      by_cases hf : strContains dt "float" <;>
        by_cases hi : strContains dt "int" <;>
          simp [dtypeStep, classifyDtype, ho, hd, hf, hi, updateDict_overwrite]

theorem foldl_dtypeStep_lookup_notin :
    ∀ (l : List (String × String)) (name : String) (acc : List (String × SqlDtype)),
      (∀ p ∈ l, p.1 ≠ name) →
      (l.foldl dtypeStep acc).lookup name = acc.lookup name := by
  intro l
  induction l with
  | nil => intro name acc _; rfl
  | cons p rest ih =>
    intro name acc hnot
    rw [List.foldl_cons, ih name _ (fun q hq => hnot q (List.mem_cons_of_mem _ hq))]
    rw [dtypeStep_eq]
    rcases hcl : classifyDtype p.2 with _ | v <;> simp only [hcl]
    exact updateDict_lookup_ne acc p.1 name v (Ne.symm (hnot p (List.mem_cons_self _ _)))

theorem foldl_dtypeStep_lookup :
    ∀ (l : List (String × String)) (name dt : String) (acc : List (String × SqlDtype)),
      (l.map Prod.fst).Nodup → (name, dt) ∈ l →
      (l.foldl dtypeStep acc).lookup name =
        match classifyDtype dt with
        | some v => some v
        | none => acc.lookup name := by
  intro l
  induction l with
  | nil => intro name dt acc _ hmem; cases hmem
  | cons p rest ih =>
    intro name dt acc hnodup hmem
    rw [List.map_cons, List.nodup_cons] at hnodup
    rcases List.mem_cons.mp hmem with heq | hmem2
    · subst heq
      have hrest : ∀ q ∈ rest, q.1 ≠ name := by
        intro q hq hqname
        exact hnodup.1 (List.mem_map.mpr ⟨q, hq, hqname⟩)
      rw [List.foldl_cons, foldl_dtypeStep_lookup_notin rest name _ hrest]
      rw [dtypeStep_eq]
      rcases hcl : classifyDtype dt with _ | v <;> simp only [hcl]
      exact updateDict_lookup_self acc name v
    · have hp1 : p.1 ≠ name := by
        intro h
        apply hnodup.1
        rw [h]
        have : name ∈ rest.map Prod.fst := by
          simpa using List.mem_map_of_mem Prod.fst hmem2
        exact this
      rw [List.foldl_cons, ih name dt _ hnodup.2 hmem2]
      rcases hcl : classifyDtype dt with _ | v <;> simp only [hcl]
      rw [dtypeStep_eq]
      rcases hcl2 : classifyDtype p.2 with _ | v2 <;> simp only [hcl2]
      exact updateDict_lookup_ne acc p.1 name v2 (Ne.symm hp1)

theorem dtypeToSqldtype_lookup (df : DataFrame) (name dt : String)
    (hnodup : ((df.cols.zip df.dtypes).map Prod.fst).Nodup)
    (hmem : (name, dt) ∈ df.cols.zip df.dtypes) :
    (dtypeToSqldtype df).lookup name = classifyDtype dt := by
  unfold dtypeToSqldtype
  rw [foldl_dtypeStep_lookup _ name dt [] hnodup hmem]
  rcases classifyDtype dt with _ | v <;> rfl

theorem dtypeToSqldtype_lookup_notin (df : DataFrame) (name : String)
    (hnot : ∀ p ∈ df.cols.zip df.dtypes, p.1 ≠ name) :
    (dtypeToSqldtype df).lookup name = none := by
  unfold dtypeToSqldtype
  rw [foldl_dtypeStep_lookup_notin _ name [] hnot]
  rfl

theorem loadData_eq_of_attempt_ok {fn : String} {ic : Nat} {uc : Bool}
    {s s1 : SQLDatabaseClient × World} {df : DataFrame}
    (h : loadDataAttempt fn ic uc s = (.ok df, s1)) :
    loadData fn ic uc s = ⟨.ok df, s1, 1⟩ :=
  retryRun_one_ok h 9

theorem writeData_eq_of_attempt_ok {df : DataFrame} {tn ie : String}
    {s s1 : SQLDatabaseClient × World} {a : Unit}
    (h : writeDataAttempt df tn ie s = (.ok a, s1)) :
    writeData df tn ie s = ⟨.ok a, s1, 1⟩ :=
  retryRun_one_ok h 9

/-! Concrete fixtures used by witnesses and counterexamples. -/

/-- The result the witness database returns for the `sales` query: mixed-case
column names, one integer, one text-like and one float column. -/
def qrW : QueryResult :=
  ⟨["ID", "Region", "Amount"], ["int64", "object", "float64"],
   [["1", "2"], ["north", "south"], ["10.5", "20.25"]]⟩

/-- A witness source database serving exactly the `sales` query. -/
def dbW : Database :=
  ⟨fun q => if q = "SELECT * FROM sales" then .ok qrW else .error (.dbError 1)⟩

/-- A lower-case single-column artifact, standing for an earlier day's cache. -/
def dfOld : DataFrame := ⟨[], [], [], ["a"], ["int64"], [["7"]]⟩

/-- Witness world: a stale `sales` artifact from 2024-01-01, one query file. -/
def wW : World :=
  ⟨dbW, [(cacheFileFmt "sales" "20240101", dfOld)],
   [("sales.sql", "SELECT * FROM sales")], true, 0, []⟩

/-- Witness client: fresh handles, store credentials, running on 2024-01-02. -/
def cW : SQLDatabaseClient := ⟨none, none, some (), "20240102"⟩

/-- Witness client built from a config with no `store` section. -/
def cWnoStore : SQLDatabaseClient := ⟨none, none, none, "20240102"⟩

/-- A world whose database fails every query. -/
def wBadDb : World := ⟨⟨fun _ => .error (.dbError 1)⟩, [], [("sales.sql", "q")], true, 0, []⟩

/-- A world with an empty query directory: every query file is missing. -/
def wNoQuery : World := ⟨⟨fun _ => .error (.dbError 1)⟩, [], [], true, 0, []⟩

/-- A world holding a same-day (2024-01-02) `sales` cache artifact. -/
def wHit : World :=
  ⟨dbW, [(cacheFileFmt "sales" "20240102", dfOld)],
   [("sales.sql", "SELECT * FROM sales")], true, 0, []⟩

/-! Claim theorems. -/

/-- C1 (amended): for every client constructed without destination (`store`)
credentials, `write_data` raises the configuration `ValueError` on each of 10
retry attempts — the `@retry` decorator retries it like any other exception —
performs zero network calls and leaves client and world unchanged, and what
finally reaches the caller is a `tenacity.RetryError` wrapping the
`ValueError`, after 10 attempts rather than immediately. -/
theorem C1_write_no_store_config_error
    (c : SQLDatabaseClient) (w : World) (df : DataFrame) (tn ie : String)
    (h : c.credentialsStore = none) :
    writeData df tn ie (c, w) =
      ⟨.error (.retryError (.valueError
          "No destination is given, in local_config.yaml, to store data.")),
       (c, w), 10⟩ :=
  retryRun_const_error (writeDataAttempt_no_store df tn ie c w h) 9

/-- Witness for C1: a concrete credential-less client keeps the world intact
and ends with the wrapped configuration error after 10 attempts. -/
theorem C1_witness :
    writeData dfOld "t1" "fail" (cWnoStore, wW) =
      ⟨.error (.retryError (.valueError
          "No destination is given, in local_config.yaml, to store data.")),
       (cWnoStore, wW), 10⟩ :=
  C1_write_no_store_config_error cWnoStore wW dfOld "t1" "fail" rfl

/-- C1 counterexample: the configuration error is not raised immediately —
the call runs 10 attempts, and the error raised is not the `ValueError`
itself (it is a `RetryError` wrapping it). -/
theorem C1_counterexample :
    (writeData dfOld "t1" "fail" (cWnoStore, wW)).attempts ≠ 1 ∧
    (writeData dfOld "t1" "fail" (cWnoStore, wW)).result ≠
      .error (.valueError "No destination is given, in local_config.yaml, to store data.") := by
  constructor <;> decide

/-- C2 (amended): for both `load_data` and `write_data`, if all 10 attempts
of the underlying body fail then the caller receives a `tenacity.RetryError`
wrapping the 10th (last) underlying error — not the underlying error itself —
after exactly 10 attempts; if attempt `k + 1` (k < 10) succeeds after `k`
failures, the caller receives that attempt's result after exactly `k + 1`
attempts. Attempt `i` runs on the state left by attempt `i - 1`. -/
theorem C2_retry_policy
    (fn : String) (ic : Nat) (uc : Bool) (df : DataFrame) (tn ie : String)
    (s : SQLDatabaseClient × World) :
    ((∀ errs : Nat → PyExc,
      (∀ k, k < 10 →
        (loadDataAttempt fn ic uc (attState (loadDataAttempt fn ic uc) s k)).1 =
          .error (errs k)) →
      loadData fn ic uc s =
        ⟨.error (.retryError (errs 9)), attState (loadDataAttempt fn ic uc) s 10, 10⟩) ∧
     (∀ k a, k < 10 →
      (∀ j, j < k → ∃ e,
        (loadDataAttempt fn ic uc (attState (loadDataAttempt fn ic uc) s j)).1 = .error e) →
      (loadDataAttempt fn ic uc (attState (loadDataAttempt fn ic uc) s k)).1 = .ok a →
      (loadData fn ic uc s).result = .ok a ∧ (loadData fn ic uc s).attempts = k + 1)) ∧
    ((∀ errs : Nat → PyExc,
      (∀ k, k < 10 →
        (writeDataAttempt df tn ie (attState (writeDataAttempt df tn ie) s k)).1 =
          .error (errs k)) →
      writeData df tn ie s =
        ⟨.error (.retryError (errs 9)), attState (writeDataAttempt df tn ie) s 10, 10⟩) ∧
     (∀ k a, k < 10 →
      (∀ j, j < k → ∃ e,
        (writeDataAttempt df tn ie (attState (writeDataAttempt df tn ie) s j)).1 = .error e) →
      (writeDataAttempt df tn ie (attState (writeDataAttempt df tn ie) s k)).1 = .ok a →
      (writeData df tn ie s).result = .ok a ∧ (writeData df tn ie s).attempts = k + 1)) := by
  refine ⟨⟨fun errs h => ?_, fun k a hk hfail hok => ?_⟩,
    ⟨fun errs h => ?_, fun k a hk hfail hok => ?_⟩⟩
  · exact retryRun_allfail (loadDataAttempt fn ic uc) 9 errs s (fun k hk => h k (by omega))
  · have h2 : loadData fn ic uc s =
        ⟨.ok a, (loadDataAttempt fn ic uc (attState (loadDataAttempt fn ic uc) s k)).2,
         k + 1⟩ :=
      retryRun_ok_at (loadDataAttempt fn ic uc) a 10 k s hk hfail hok
    rw [h2]
    exact ⟨rfl, rfl⟩
  · exact retryRun_allfail (writeDataAttempt df tn ie) 9 errs s (fun k hk => h k (by omega))
  · have h2 : writeData df tn ie s =
        ⟨.ok a, (writeDataAttempt df tn ie (attState (writeDataAttempt df tn ie) s k)).2,
         k + 1⟩ :=
      retryRun_ok_at (writeDataAttempt df tn ie) a 10 k s hk hfail hok
    rw [h2]
    exact ⟨rfl, rfl⟩

/-- Witness for C2: a load whose 10 attempts all fail with the same database
error ends with a `RetryError` wrapping it after 10 attempts. -/
theorem C2_witness :
    loadData "sales" 0 false (cW, wBadDb) =
      ⟨.error (.retryError (.dbError 1)),
       attState (loadDataAttempt "sales" 0 false) (cW, wBadDb) 10, 10⟩ :=
  (C2_retry_policy "sales" 0 false dfOld "t1" "fail" (cW, wBadDb)).1.1
    (fun _ => .dbError 1) (by decide)

/-- C2 counterexample: after 10 failed attempts, the error raised to the
caller is not the last underlying error itself — it is wrapped. -/
theorem C2_counterexample :
    (loadData "sales" 0 false (cW, wBadDb)).result ≠ .error (.dbError 1) := by
  decide

/-- C3 (amended): a load whose query file is missing raises the
`FileNotFoundError` on each of 10 retry attempts — the decorator retries
filesystem errors like any other failure — leaves the state untouched and
finally raises a `tenacity.RetryError` wrapping the filesystem error, rather
than propagating it uncaught on the first attempt. -/
theorem C3_missing_query_file_retried
    (c : SQLDatabaseClient) (w : World) (fn : String) (ic : Nat) (uc : Bool)
    (hnc : w.cacheFiles.lookup (cacheFileFmt fn c.suffix) = none ∨ uc = false)
    (hq : w.queryFiles.lookup (queryFileFmt fn) = none) :
    loadData fn ic uc (c, w) =
      ⟨.error (.retryError (.fileNotFoundError (queryFileFmt fn))), (c, w), 10⟩ :=
  retryRun_const_error (loadDataAttempt_missing_query ic uc hnc hq) 9

/-- Witness for C3 at a concrete world with an empty query directory. -/
theorem C3_witness :
    loadData "sales" 0 false (cW, wNoQuery) =
      ⟨.error (.retryError (.fileNotFoundError "sales.sql")), (cW, wNoQuery), 10⟩ :=
  C3_missing_query_file_retried cW wNoQuery "sales" 0 false (Or.inr rfl) rfl

/-- C3 counterexample: the filesystem error does not propagate uncaught — the
load makes 10 attempts and raises a wrapped error instead. -/
theorem C3_counterexample :
    (loadData "sales" 0 false (cW, wNoQuery)).attempts ≠ 1 ∧
    (loadData "sales" 0 false (cW, wNoQuery)).result ≠
      .error (.fileNotFoundError "sales.sql") := by
  constructor <;> decide

/-- C4: a query-path load of query `Q` with `use_cache` on day `D2` first
deletes every existing artifact whose name starts with `Q` — in particular
the artifact written on any other day `D1 ≠ D2` — and then writes the fresh
artifact, so exactly one cache artifact for `Q` remains. -/
theorem C4_cache_eviction
    (c : SQLDatabaseClient) (w : World) (fn qtext : String) (qr : QueryResult) (ic : Nat)
    (hnc : w.cacheFiles.lookup (cacheFileFmt fn c.suffix) = none)
    (hq : w.queryFiles.lookup (queryFileFmt fn) = some qtext)
    (hconn : c.dbClient = none)
    (hdb : w.db.run qtext = .ok qr)
    (hic : ic ≤ qr.colNames.length)
    (hwr : w.cacheWritable = true) :
    ((loadData fn ic true (c, w)).state.2.cacheFiles.filter
        (fun p => strStartsWith p.1 fn)) =
      [(cacheFileFmt fn c.suffix, mkLoadFrame qr ic)] ∧
    (∀ d, d ≠ c.suffix →
      (loadData fn ic true (c, w)).state.2.cacheFiles.lookup (cacheFileFmt fn d) = none) := by
  rw [loadData_eq_of_attempt_ok (loadDataAttempt_query_fresh hnc hq hconn hdb hic hwr)]
  refine ⟨?_, fun d hd => ?_⟩
  · simp only [List.filter_cons, strStartsWith_cacheFileFmt, if_true, clear_filter_empty]
  · have hne : (cacheFileFmt fn d == cacheFileFmt fn c.suffix) = false := by
      simp only [beq_eq_false_iff_ne]
      exact fun he => hd (cacheFileFmt_suffix_inj he)
    simp only [List.lookup, hne]
    exact lookup_clear_of_starts _ fn _ (strStartsWith_cacheFileFmt fn d)

/-- Witness for C4: loading `sales` on 2024-01-02 removes the 2024-01-01
artifact and leaves exactly the fresh 2024-01-02 artifact for `sales`. -/
theorem C4_witness :
    ((loadData "sales" 0 true (cW, wW)).state.2.cacheFiles.filter
        (fun p => strStartsWith p.1 "sales")) =
      [(cacheFileFmt "sales" cW.suffix, mkLoadFrame qrW 0)] ∧
    (loadData "sales" 0 true (cW, wW)).state.2.cacheFiles.lookup
      (cacheFileFmt "sales" "20240101") = none := by
  have h := C4_cache_eviction cW wW "sales" "SELECT * FROM sales" qrW 0
    (by decide) (by decide) rfl rfl (by decide) rfl
  exact ⟨h.1, h.2 "20240101" (by decide)⟩

/-- C5: a load with `use_cache` finding a same-day artifact returns exactly
that artifact's contents on the first attempt, with client and world — in
particular the connection handle and the count of opened connections —
unchanged. -/
theorem C5_cache_hit
    (c : SQLDatabaseClient) (w : World) (fn : String) (ic : Nat) (df : DataFrame)
    (hl : w.cacheFiles.lookup (cacheFileFmt fn c.suffix) = some df) :
    loadData fn ic true (c, w) = ⟨.ok df, (c, w), 1⟩ :=
  loadData_eq_of_attempt_ok (loadDataAttempt_cache_hit ic hl)

/-- Witness for C5 at a world holding a same-day `sales` artifact. -/
theorem C5_witness :
    loadData "sales" 3 true (cW, wHit) = ⟨.ok dfOld, (cW, wHit), 1⟩ :=
  C5_cache_hit cW wHit "sales" 3 dfOld (by decide)

/-- C6: the read connection handle is created lazily — a cache hit leaves the
client (and connection count) untouched, the first query-path load opens
exactly one connection — the handle persists and is reused by later loads
(no second connection is ever opened: a load finding an open handle runs on it
and a load finding the closed handle fails with `InterfaceError` on all 10
attempts without reconnecting), and after a successful query-path load the
held connection is closed. -/
theorem C6_connection_lifecycle
    (c : SQLDatabaseClient) (w : World) (fn qtext : String) (qr : QueryResult) :
    (∀ ic df, w.cacheFiles.lookup (cacheFileFmt fn c.suffix) = some df →
      (loadData fn ic true (c, w)).state = (c, w)) ∧
    (w.queryFiles.lookup (queryFileFmt fn) = some qtext →
     w.db.run qtext = .ok qr → w.cacheWritable = true → c.dbClient = none →
      (loadData fn 0 false (c, w)).state.1.dbClient = some ⟨w.connectionsOpened, false⟩ ∧
      (loadData fn 0 false (c, w)).state.2.connectionsOpened = w.connectionsOpened + 1) ∧
    (∀ conn, w.queryFiles.lookup (queryFileFmt fn) = some qtext →
     w.db.run qtext = .ok qr → w.cacheWritable = true →
     c.dbClient = some conn → conn.isOpen = true →
      (loadData fn 0 false (c, w)).state.1.dbClient = some ⟨conn.connId, false⟩ ∧
      (loadData fn 0 false (c, w)).state.2.connectionsOpened = w.connectionsOpened) ∧
    (∀ conn, w.queryFiles.lookup (queryFileFmt fn) = some qtext →
     c.dbClient = some conn → conn.isOpen = false →
      loadData fn 0 false (c, w) = ⟨.error (.retryError .interfaceError), (c, w), 10⟩) := by
  refine ⟨fun ic df hl => ?_, fun hq hdb hwr hc => ?_,
    fun conn hq hdb hwr hc ho => ?_, fun conn hq hc ho => ?_⟩
  · rw [loadData_eq_of_attempt_ok (loadDataAttempt_cache_hit ic hl)]
  · rw [loadData_eq_of_attempt_ok
      (loadDataAttempt_query_fresh_nocache hq hc hdb (Nat.zero_le _) hwr)]
    exact ⟨rfl, rfl⟩
  · rw [loadData_eq_of_attempt_ok
      (loadDataAttempt_query_reuse_nocache hq hc ho hdb (Nat.zero_le _) hwr)]
    exact ⟨rfl, rfl⟩
  · exact retryRun_const_error (loadDataAttempt_closed_conn 0 false (Or.inr rfl) hq hc ho) 9

/-- Witness for C6: the first query-path load on a fresh client opens one
connection and leaves the handle holding it, closed. -/
theorem C6_witness :
    (loadData "sales" 0 false (cW, wW)).state.1.dbClient = some ⟨0, false⟩ ∧
    (loadData "sales" 0 false (cW, wW)).state.2.connectionsOpened = 1 :=
  (C6_connection_lifecycle cW wW "sales" "SELECT * FROM sales" qrW).2.1 rfl rfl rfl rfl

instance (df : DataFrame) : Decidable (dfLowered df) := by
  unfold dfLowered
  infer_instance

/-- C7: if every artifact in the cache directory has lower-case column names
(as every artifact this loader writes does — clause two shows the property is
preserved), then every successful load returns a result whose column names,
index columns included, are all lower-case, whichever of the cache or query
path produced it. -/
theorem C7_columns_lowercase
    (c : SQLDatabaseClient) (w : World) (fn : String) (ic : Nat) (uc : Bool)
    (hw : ∀ p ∈ w.cacheFiles, dfLowered p.2) :
    (∀ df, (loadData fn ic uc (c, w)).result = .ok df → dfLowered df) ∧
    (∀ p ∈ (loadData fn ic uc (c, w)).state.2.cacheFiles, dfLowered p.2) := by
  have h := retryRun_inv (loadDataAttempt fn ic uc)
    (fun s => ∀ p ∈ s.2.cacheFiles, dfLowered p.2) dfLowered
    (fun s hs => loadDataAttempt_lowered fn ic uc s hs) 10 (c, w) hw
  exact ⟨h.2, h.1⟩

/-- Witness for C7: the query path lower-cases the mixed-case `sales` result
(columns `ID`, `Region`, `Amount`). -/
theorem C7_witness :
    (loadData "sales" 1 true (cW, wW)).result = .ok (mkLoadFrame qrW 1) ∧
    dfLowered (mkLoadFrame qrW 1) := by
  have h := C7_columns_lowercase cW wW "sales" 1 true (by decide)
  have hres : (loadData "sales" 1 true (cW, wW)).result = .ok (mkLoadFrame qrW 1) := by
    have hnc9 : wW.cacheFiles.lookup (cacheFileFmt "sales" cW.suffix) = none := by decide
    have hq9 : wW.queryFiles.lookup (queryFileFmt "sales") = some "SELECT * FROM sales" := by
      decide
    have hdb9 : wW.db.run "SELECT * FROM sales" = .ok qrW := rfl
    have hic9 : (1 : Nat) ≤ qrW.colNames.length := by decide
    rw [loadData_eq_of_attempt_ok (loadDataAttempt_query_fresh hnc9 hq9 rfl hdb9 hic9 rfl)]
  exact ⟨hres, h.1 _ hres⟩

/-- C8: a query-path load with `index_cols = k > 0` (k within the column
count) returns a frame whose index columns are the first `k` lower-cased
result columns in their original positional order and whose remaining columns
keep their original relative order. -/
theorem C8_index_promotion
    (c : SQLDatabaseClient) (w : World) (fn qtext : String) (qr : QueryResult) (k : Nat)
    (hk : 0 < k)
    (hq : w.queryFiles.lookup (queryFileFmt fn) = some qtext)
    (hconn : c.dbClient = none)
    (hdb : w.db.run qtext = .ok qr)
    (hic : k ≤ qr.colNames.length)
    (hwr : w.cacheWritable = true) :
    (loadData fn k false (c, w)).result = .ok
      { indexCols := (qr.colNames.map strLower).take k
        indexDtypes := qr.dtypes.take k
        indexData := qr.colData.take k
        cols := (qr.colNames.map strLower).drop k
        dtypes := qr.dtypes.drop k
        colData := qr.colData.drop k } := by
  rw [loadData_eq_of_attempt_ok (loadDataAttempt_query_fresh_nocache hq hconn hdb hic hwr)]
  simp [mkLoadFrame, hk, DataFrame.setIndex]

/-- Witness for C8: `index_cols = 1` on the three-column `sales` result makes
`id` the index and keeps `region`, `amount` in order. -/
theorem C8_witness :
    (loadData "sales" 1 false (cW, wW)).result = .ok
      { indexCols := (qrW.colNames.map strLower).take 1
        indexDtypes := qrW.dtypes.take 1
        indexData := qrW.colData.take 1
        cols := (qrW.colNames.map strLower).drop 1
        dtypes := qrW.dtypes.drop 1
        colData := qrW.colData.drop 1 } :=
  C8_index_promotion cW wW "sales" "SELECT * FROM sales" qrW 1
    (by decide) (by decide) rfl rfl (by decide) rfl

/-- C9: a write with store credentials succeeds on the first attempt and
performs one `to_sql` call whose dtype dict is the inference over
`df.reset_index()` (index columns re-inserted ahead of the ordinary columns);
with distinct column names, each column's entry is decided by substring tests
on its dtype string — `int` to INT, else `float` to FLOAT(12), else
`datetime` to DateTime (timestamp), else `object` (text) to VARCHAR(12) —
and a column matching no pattern has no entry (`classifyDtype`). -/
theorem C9_dtype_inference
    (c : SQLDatabaseClient) (w : World) (df : DataFrame) (tn ie : String)
    (h : c.credentialsStore = some ()) :
    (writeData df tn ie (c, w)).result = .ok () ∧
    (writeData df tn ie (c, w)).state.2.writes =
      w.writes ++ [⟨tn, df, ie, dtypeToSqldtype df.resetIndex⟩] ∧
    (∀ name dt,
      ((df.resetIndex.cols.zip df.resetIndex.dtypes).map Prod.fst).Nodup →
      (name, dt) ∈ df.resetIndex.cols.zip df.resetIndex.dtypes →
      (dtypeToSqldtype df.resetIndex).lookup name = classifyDtype dt) ∧
    (∀ name, (∀ p ∈ df.resetIndex.cols.zip df.resetIndex.dtypes, p.1 ≠ name) →
      (dtypeToSqldtype df.resetIndex).lookup name = none) := by
  rw [writeData_eq_of_attempt_ok (writeDataAttempt_store df tn ie c w h)]
  exact ⟨rfl, rfl,
    fun name dt hnodup hmem => dtypeToSqldtype_lookup _ name dt hnodup hmem,
    fun name hnot => dtypeToSqldtype_lookup_notin _ name hnot⟩

/-- A frame exercising all four dtype patterns plus an unmatched one: a
datetime index column, and integer, text, float and bool ordinary columns. -/
def dfW9 : DataFrame :=
  ⟨["When"], ["datetime64[ns]"], [["2024-01-01"]],
   ["N", "Name", "X", "Flag"], ["int64", "object", "float64", "bool"],
   [["1"], ["s"], ["1.5"], ["True"]]⟩

/-- Witness for C9: the write logs the inferred dict; the index column maps
to DateTime, `int64` to INT, `object` to VARCHAR(12), `float64` to FLOAT(12),
and `bool` gets no entry. -/
theorem C9_witness :
    (writeData dfW9 "t9" "replace" (cW, wW)).result = .ok () ∧
    (writeData dfW9 "t9" "replace" (cW, wW)).state.2.writes =
      wW.writes ++ [⟨"t9", dfW9, "replace", dtypeToSqldtype dfW9.resetIndex⟩] ∧
    (dtypeToSqldtype dfW9.resetIndex).lookup "When" = some .DateTime ∧
    (dtypeToSqldtype dfW9.resetIndex).lookup "N" = some .INT ∧
    (dtypeToSqldtype dfW9.resetIndex).lookup "Name" = some (.VARCHAR 12) ∧
    (dtypeToSqldtype dfW9.resetIndex).lookup "X" = some (.FLOAT 12) ∧
    (dtypeToSqldtype dfW9.resetIndex).lookup "Flag" = none := by
  have h := C9_dtype_inference cW wW dfW9 "t9" "replace" rfl
  refine ⟨h.1, h.2.1, ?_, ?_, ?_, ?_, ?_⟩
  · exact (h.2.2.1 "When" "datetime64[ns]" (by decide) (by decide)).trans (by decide)
  · exact (h.2.2.1 "N" "int64" (by decide) (by decide)).trans (by decide)
  · exact (h.2.2.1 "Name" "object" (by decide) (by decide)).trans (by decide)
  · exact (h.2.2.1 "X" "float64" (by decide) (by decide)).trans (by decide)
  · exact (h.2.2.1 "Flag" "bool" (by decide) (by decide)).trans (by decide)

/-- C10: stale-cache eviction matches by filename start: a query-path load of
query `Q` removes every cache file whose name starts with `Q`, including the
artifacts of any other query whose name has `Q` as a (proper) prefix. -/
theorem C10_eviction_matches_name_start
    (c : SQLDatabaseClient) (w : World) (fn qtext : String) (qr : QueryResult) (ic : Nat)
    (hq : w.queryFiles.lookup (queryFileFmt fn) = some qtext)
    (hconn : c.dbClient = none)
    (hdb : w.db.run qtext = .ok qr)
    (hic : ic ≤ qr.colNames.length)
    (hwr : w.cacheWritable = true) :
    (loadData fn ic false (c, w)).state.2.cacheFiles =
      clearCachedFiles w.cacheFiles fn ∧
    (∀ key, strStartsWith key fn = true →
      (loadData fn ic false (c, w)).state.2.cacheFiles.lookup key = none) ∧
    (∀ fn2 d, strStartsWith fn2 fn = true →
      (loadData fn ic false (c, w)).state.2.cacheFiles.lookup (cacheFileFmt fn2 d) = none) := by
  rw [loadData_eq_of_attempt_ok (loadDataAttempt_query_fresh_nocache hq hconn hdb hic hwr)]
  refine ⟨rfl, fun key hkey => lookup_clear_of_starts _ fn key hkey, fun fn2 d h2 => ?_⟩
  exact lookup_clear_of_starts _ fn _ (strStartsWith_trans h2 (strStartsWith_cacheFileFmt fn2 d))

/-- Witness world for C10: artifacts for `sales2` (which has `sales` as a
proper prefix) and for the unrelated query `other`. -/
def wW10 : World :=
  ⟨dbW, [(cacheFileFmt "sales2" "20240101", dfOld), (cacheFileFmt "other" "20240101", dfOld)],
   [("sales.sql", "SELECT * FROM sales")], true, 0, []⟩

/-- Witness for C10: loading `sales` deletes `sales2`'s artifact (prefix
match) while `other`'s artifact survives. -/
theorem C10_witness :
    (loadData "sales" 0 false (cW, wW10)).state.2.cacheFiles =
      clearCachedFiles wW10.cacheFiles "sales" ∧
    (loadData "sales" 0 false (cW, wW10)).state.2.cacheFiles.lookup
      (cacheFileFmt "sales2" "20240101") = none ∧
    (loadData "sales" 0 false (cW, wW10)).state.2.cacheFiles.lookup
      (cacheFileFmt "other" "20240101") = some dfOld := by
  have h := C10_eviction_matches_name_start cW wW10 "sales" "SELECT * FROM sales" qrW 0
    (by decide) rfl rfl (by decide) rfl
  refine ⟨h.1, h.2.2 "sales2" "20240101" (by decide), ?_⟩
  rw [h.1]
  decide

end DBClient
